import Mathlib

/-!
# gochromadb: the OpenAI embeddings client and the test embedder

A shallow embedding of `embeddings/openai.go` (`NewOpenAIClient`,
`OpenAIClient.GetEmbeddings`) and of the `testEmbedder` of `collection_test.go`.

Modelling conventions.

* A Go slice is a `List`; the nil slice and the empty slice are both `[]`
  (the code only ever takes `len` of a slice or returns it).
* A Go `error` is a `GoError`; the nil error is `none`.
* A `float32` value is represented by the rational number it denotes. The
  conversions of the test embedder to `float32` round as the code does
  (`float32OfNat`, `f32_1_1`, `f32_2_2`); distances between the vectors it
  returns are computed exactly.
* The package-level `http.DefaultClient` and `json.Unmarshal` belong to the Go
  standard library: they are parameters of `GetEmbeddings`.
* `json.Marshal` of a `map[string]string` and `http.NewRequest` with the method
  `POST` and the fixed URL never fail, so their error returns are not modelled.
* The calls on `log.Debug()` are recorded as the list of records handed to the
  logger.
-/

namespace Gochroma

/-! ## Data model -/

/-- A `float32` value, as the rational it denotes. -/
abbrev float32 := ℚ

/-- A Go `error`: one made by a library or by `fmt.Errorf` without `%w`
(`leaf`), or one made by `fmt.Errorf` with `%w` around another (`wrap`). -/
inductive GoError where
  | leaf (msg : String)
  | wrap (msg : String) (inner : GoError)
  deriving DecidableEq, Repr

/-- The method `Error()` of an error: its message. -/
def GoError.Error : GoError → String
  | .leaf msg => msg
  | .wrap msg _ => msg

/-- The function `errors.Unwrap`: the error wrapped with `%w`, when there is one. -/
def GoError.Unwrap : GoError → Option GoError
  | .leaf _ => none
  | .wrap _ inner => some inner

/-- The call `fmt.Errorf(format, ..., err, ...)` with one `%w` verb: `msg` is the
formatted text, in which `%w` is replaced by `err.Error()`. -/
def Errorf_w (msg : String) (err : GoError) : GoError := .wrap msg err

/-- One entry of `embeddingResponse.Data`. -/
structure embeddingData where
  Object : String
  Index : Int
  Embedding : List float32
  deriving DecidableEq, Repr

/-- The field `Usage` of `embeddingResponse`. -/
structure embeddingUsage where
  PromptTokens : Int
  TotalTokens : Int
  deriving DecidableEq, Repr

/-- The struct `embeddingResponse`. -/
structure embeddingResponse where
  Data : List embeddingData
  Model : String
  Usage : embeddingUsage
  deriving DecidableEq, Repr

/-- An `*http.Request` as `GetEmbeddings` builds it: method, URL, the headers in
the order they were added, and the JSON object that is its body (the
`map[string]string` given to `json.Marshal`, keys in the encoder's sorted
order). -/
structure Request where
  Method : String
  URL : String
  Header : List (String × String)
  Body : List (String × String)
  deriving DecidableEq, Repr

/-- An `*http.Response` as `GetEmbeddings` reads it: the status code, the status
text and the outcome of `io.ReadAll(resp.Body)`. -/
structure Response where
  StatusCode : Int
  Status : String
  Body : Except GoError String

/-- The method `Do` of an `*http.Client`. -/
abbrev HTTPClient := Request → Except GoError Response

/-- The function `json.Unmarshal` into an `embeddingResponse`. -/
abbrev Unmarshaler := String → Except GoError embeddingResponse

/-- The struct `OpenAIClient`. -/
structure OpenAIClient where
  client : HTTPClient
  authHeader : String

/-- One debug record of the logger, with the fields `GetEmbeddings` sets. -/
structure LogRecord where
  documentID : String
  embeddingModelUsed : String
  promptTokensUsed : Int
  totalTokensUsed : Int
  Msg : String
  deriving DecidableEq, Repr

/-- What one call of `GetEmbeddings` does: the request handed to
`http.DefaultClient.Do`, the records logged, and the two return values. -/
structure Run where
  req : Request
  log : List LogRecord
  vec : List float32
  err : Option GoError

/-- The constant `http.StatusOK`. -/
def StatusOK : Int := 200

/-- The constant `http.MethodPost`. -/
def MethodPost : String := "POST"

/-! ## embeddings/openai.go -/

/-- The package variable `openAIURL`. -/
def openAIURL : String := "https://api.openai.com/v1/"

/-- The package variable `openAIEmbeddingsURL`. -/
def openAIEmbeddingsURL : String := openAIURL ++ "/embeddings"

/-- The function `NewOpenAIClient`; `DefaultClient` is `http.DefaultClient`. -/
def NewOpenAIClient (DefaultClient : HTTPClient) (key : String) : OpenAIClient :=
  { client := DefaultClient, authHeader := "Bearer " ++ key }

/-- The method `OpenAIClient.GetEmbeddings`; `DefaultClient` is the package-level
`http.DefaultClient` and `Unmarshal` is `json.Unmarshal`. -/
def GetEmbeddings (DefaultClient : HTTPClient) (Unmarshal : Unmarshaler)
    (o : OpenAIClient) (id : String) (content : String) : Run :=
  let body : List (String × String) :=
    [("input", content), ("model", "text-embedding-ada-002")]
  let req : Request :=
    { Method := MethodPost, URL := openAIEmbeddingsURL,
      Header := [("Content-Type", "application/json"), ("Authorization", o.authHeader)],
      Body := body }
  match DefaultClient req with
  | .error err => { req := req, log := [], vec := [], err := some err }
  | .ok resp =>
    if resp.StatusCode ≠ StatusOK then
      match resp.Body with
      | .error _ =>
        { req := req, log := [], vec := [],
          err := some (.leaf
            ("error getting openai embeddings and unable to read response body. status: "
              ++ resp.Status)) }
      | .ok body =>
        { req := req, log := [], vec := [],
          err := some (.leaf
            ("error getting openai embeddings. Status: " ++ resp.Status
              ++ " Response: " ++ body)) }
    else
      match resp.Body with
      | .error err =>
        { req := req, log := [], vec := [],
          err := some (Errorf_w
            ("error reading openai embeddings response body: " ++ err.Error) err) }
      | .ok respBody =>
        match Unmarshal respBody with
        | .error err =>
          { req := req, log := [], vec := [],
            err := some (Errorf_w
              ("error unmarshaling openai embeddings response: " ++ err.Error
                ++ "\nresponse body: " ++ respBody) err) }
        | .ok er =>
          let record : LogRecord :=
            { documentID := id, embeddingModelUsed := er.Model,
              promptTokensUsed := er.Usage.PromptTokens,
              totalTokensUsed := er.Usage.TotalTokens,
              Msg := "openai embedding token usage" }
          match er.Data with
          | [] =>
            { req := req, log := [record], vec := [],
              err := some (.leaf "something went wrong, got no embeddings from openai") }
          | first :: _ =>
            { req := req, log := [record], vec := first.Embedding, err := none }

/-! ## collection_test.go -/

/-- The conversion `float32(n)` of a non-negative `int`: the nearest number with
a significand of 24 bits, a tie going to the even significand. With `e` the
number of bits of `n` below its leading 24, `q` is the significand and `r` the
bits dropped. The result is an integer; no `int` reaches the overflow range. -/
def float32OfNat (n : Nat) : Nat :=
  let e := Nat.log2 n + 1 - 24
  let q := n / 2 ^ e
  let r := n % 2 ^ e
  if 2 * r < 2 ^ e then q * 2 ^ e
  else if 2 * r = 2 ^ e ∧ q % 2 = 0 then q * 2 ^ e
  else (q + 1) * 2 ^ e

/-- The constant `1.1` as a `float32`: the nearest is `9227469 / 2 ^ 23`. -/
def f32_1_1 : float32 := 9227469 / 8388608

/-- The constant `2.2` as a `float32`: the nearest is `9227469 / 2 ^ 22`. -/
def f32_2_2 : float32 := 9227469 / 4194304

/-- The method `testEmbedder.GetEmbeddings`; `len(content)` counts bytes. -/
def testEmbedder.GetEmbeddings (content : String) : List float32 × Option GoError :=
  ([((float32OfNat content.utf8ByteSize : ℕ) : ℚ), f32_1_1, f32_2_2], none)

/-- The method `testEmbedder.GetEmbeddingsBatch`; here `len(content)` is the
length of the slice of contents. -/
def testEmbedder.GetEmbeddingsBatch (content : List String) :
    List (List float32) × Option GoError :=
  ([[((float32OfNat content.length : ℕ) : ℚ), f32_1_1, f32_2_2]], none)

/-! ## Vocabulary of the statements -/

/-- The text `s` occurs in `msg`. -/
def Contains (msg s : String) : Prop := ∃ pre post : String, msg = pre ++ s ++ post

/-- Modelled from the spec: the l2 metric of the remote store, whose code is not
part of the sources. `l2sq u v` is the sum of the squared coordinate
differences of two vectors. -/
def l2sq (u v : List ℚ) : ℚ := (List.zipWith (fun x y => (x - y) ^ 2) u v).sum

/-- Modelled from the spec: `d` is the l2 (Euclidean) distance of `u` and `v`,
the non-negative number whose square is `l2sq u v`. -/
def IsL2Distance (u v : List ℚ) (d : ℚ) : Prop := 0 ≤ d ∧ d ^ 2 = l2sq u v

/-- Modelled from the spec: the ranking of a query by the remote store, "results
are ordered by ascending distance": for the query vector `q`, a document with
embedding `a` ranks before one with embedding `b` when its l2 distance to `q`
is strictly smaller. -/
def RanksBefore (q a b : List ℚ) : Prop :=
  ∃ da db : ℚ, IsL2Distance q a da ∧ IsL2Distance q b db ∧ da < db

/-- A content of `n` bytes: `n` times the letter `a`. -/
def longContent (n : Nat) : String := String.mk (List.replicate n 'a')

/-- The response of the test server of `It("getEmbeddings")`, decoded: two
entries, both with index 0. -/
def testEmbeddingsResponse : embeddingResponse :=
  { Data :=
      [ { Object := "embedding", Index := 0,
          Embedding := [0.0023064255, -0.009327292, -0.0028842222] },
        { Object := "embedding", Index := 0,
          Embedding := [1.0023064255, 2.009327292, 3.0028842222] } ],
    Model := "text-embedding-ada-002",
    Usage := { PromptTokens := 8, TotalTokens := 8 } }

/-- A client that answers every request with the given response. -/
def serve (resp : Response) : HTTPClient := fun _ => .ok resp

/-- A client that fails on every request. -/
def refuse (msg : String) : HTTPClient := fun _ => .error (.leaf msg)

/-- A decoder known on one body only: it yields `er` on `raw`, as
`json.Unmarshal` does there, and is not consulted elsewhere. -/
def unmarshalAt (raw : String) (er : embeddingResponse) : Unmarshaler :=
  fun b => if b = raw then .ok er else .error (.leaf "unexpected end of JSON input")

/-- A decoder that rejects every body with the given error. -/
def unmarshalFails (e : GoError) : Unmarshaler := fun _ => .error e

/-- A body whose single data entry carries no embedding. -/
def noEmbeddingBody : String :=
  "\x7b\"data\":[\x7b\"object\":\"embedding\",\"index\":0\x7d]\x7d"

/-- The body `noEmbeddingBody`, decoded: one entry, its embedding left at the
zero value. -/
def noEmbeddingResponse : embeddingResponse :=
  { Data := [{ Object := "embedding", Index := 0, Embedding := [] }],
    Model := "", Usage := { PromptTokens := 0, TotalTokens := 0 } }

/-! ## Helper lemmas -/

/-- The request of a call is the same whatever the default client answers. -/
theorem GetEmbeddings_req (D : HTTPClient) (U : Unmarshaler) (o : OpenAIClient)
    (id content : String) :
    (GetEmbeddings D U o id content).req =
      { Method := "POST", URL := "https://api.openai.com/v1/" ++ "/embeddings",
        Header := [("Content-Type", "application/json"), ("Authorization", o.authHeader)],
        Body := [("input", content), ("model", "text-embedding-ada-002")] } := by
  unfold GetEmbeddings
  simp only [MethodPost, openAIEmbeddingsURL, openAIURL]
  repeat' split
  all_goals rfl

/-- The conversion `float32OfNat`, with the position of the leading bit given. -/
theorem float32OfNat_of_log2 (n k : Nat) (hk : Nat.log2 n = k) :
    float32OfNat n =
      if 2 * (n % 2 ^ (k + 1 - 24)) < 2 ^ (k + 1 - 24) then
        n / 2 ^ (k + 1 - 24) * 2 ^ (k + 1 - 24)
      else if 2 * (n % 2 ^ (k + 1 - 24)) = 2 ^ (k + 1 - 24) ∧ n / 2 ^ (k + 1 - 24) % 2 = 0 then
        n / 2 ^ (k + 1 - 24) * 2 ^ (k + 1 - 24)
      else (n / 2 ^ (k + 1 - 24) + 1) * 2 ^ (k + 1 - 24) := by
  subst hk
  rfl

/-- A number from `2 ^ 24` up to `2 ^ 25` has its leading bit at position 24. -/
theorem log2_eq_24 (n : Nat) (h1 : 2 ^ 24 ≤ n) (h2 : n < 2 ^ 25) : Nat.log2 n = 24 := by
  rw [Nat.log2_eq_log_two, Nat.log_eq_iff (Or.inl (by norm_num))]
  exact ⟨h1, h2⟩

/-- Every length up to `2 ^ 24` is converted to `float32` without rounding. -/
theorem float32OfNat_exact (n : Nat) (h : n ≤ 2 ^ 24) : float32OfNat n = n := by
  rcases Nat.lt_or_ge n (2 ^ 24) with hlt | hge
  · have hk : Nat.log2 n + 1 - 24 = 0 := by
      rcases Nat.eq_zero_or_pos n with h0 | hpos
      · subst h0; simp [Nat.log2]
      · have := (Nat.log2_lt (Nat.pos_iff_ne_zero.mp hpos)).mpr hlt
        omega
    rw [float32OfNat_of_log2 n _ rfl, hk]
    simp [Nat.mod_one]
  · have hn : n = 2 ^ 24 := le_antisymm h hge
    subst hn
    rw [float32OfNat_of_log2 _ 24 (log2_eq_24 _ (by norm_num) (by norm_num))]
    decide

/-- The length `2 ^ 24 + 1` lies halfway between two `float32` values and is
rounded down to the even one, `2 ^ 24`. -/
theorem float32OfNat_16777217 : float32OfNat 16777217 = 16777216 := by
  rw [float32OfNat_of_log2 _ 24 (log2_eq_24 _ (by norm_num) (by norm_num))]
  decide

/-- The length `2 ^ 24 + 2` is a `float32` value. -/
theorem float32OfNat_16777218 : float32OfNat 16777218 = 16777218 := by
  rw [float32OfNat_of_log2 _ 24 (log2_eq_24 _ (by norm_num) (by norm_num))]
  decide

/-- The content `longContent n` has `n` bytes. -/
theorem utf8ByteSize_longContent (n : Nat) : (longContent n).utf8ByteSize = n := by
  unfold longContent
  induction n with
  | zero => rfl
  | succ k ih =>
    rw [List.replicate_succ]
    show String.utf8ByteSize.go (List.replicate k 'a') + 'a'.utf8Size = k + 1
    have hk : String.utf8ByteSize.go (List.replicate k 'a') = k := ih
    rw [hk]
    rfl

/-- The squared l2 distance of two test embeddings is the squared difference of
their first coordinates, the byte lengths as `float32` values. -/
theorem l2sq_testEmbedder (q a : String) :
    l2sq (testEmbedder.GetEmbeddings q).1 (testEmbedder.GetEmbeddings a).1
      = (((float32OfNat q.utf8ByteSize : ℕ) : ℚ)
          - ((float32OfNat a.utf8ByteSize : ℕ) : ℚ)) ^ 2 := by
  simp [l2sq, testEmbedder.GetEmbeddings]

/-- A non-negative rational whose square is the square of `x` is `|x|`. -/
theorem eq_abs_of_sq_eq (d x : ℚ) (h0 : 0 ≤ d) (h : d ^ 2 = x ^ 2) : d = |x| := by
  have h1 : |d| = |x| := (sq_eq_sq_iff_abs_eq_abs d x).mp h
  rwa [abs_of_nonneg h0] at h1

/-! ## The claims -/

/-- C1: on a response with status 200 whose body decodes to an embeddings
response with a non-empty data array, `GetEmbeddings` returns no error and the
embedding of the first entry, whatever the index fields are and whatever
entries follow. -/
theorem GetEmbeddings_first_entry (D : HTTPClient) (U : Unmarshaler) (o : OpenAIClient)
    (id content : String) (resp : Response) (raw : String) (er : embeddingResponse)
    (first : embeddingData) (rest : List embeddingData)
    (hdo : D (GetEmbeddings D U o id content).req = .ok resp)
    (hstatus : resp.StatusCode = 200)
    (hbody : resp.Body = .ok raw)
    (hdec : U raw = .ok er)
    (hdata : er.Data = first :: rest) :
    (GetEmbeddings D U o id content).err = none ∧
      (GetEmbeddings D U o id content).vec = first.Embedding := by
  rw [GetEmbeddings_req] at hdo
  unfold GetEmbeddings
  simp only [MethodPost, openAIEmbeddingsURL, openAIURL, StatusOK, hdo, hstatus, hbody, hdec,
    hdata]
  simp

/-- C1, at the response of the test: the result is the three-element vector of
the first of the two entries. -/
theorem GetEmbeddings_first_entry_witness :
    (GetEmbeddings (serve ⟨200, "200 OK", .ok "body"⟩)
        (unmarshalAt "body" testEmbeddingsResponse) (NewOpenAIClient (refuse "unused") "")
        "doc" "foo").err = none ∧
      (GetEmbeddings (serve ⟨200, "200 OK", .ok "body"⟩)
        (unmarshalAt "body" testEmbeddingsResponse) (NewOpenAIClient (refuse "unused") "")
        "doc" "foo").vec = [0.0023064255, -0.009327292, -0.0028842222] ∧
      ([0.0023064255, -0.009327292, -0.0028842222] : List float32).length = 3 :=
  ⟨(GetEmbeddings_first_entry _ _ _ "doc" "foo" ⟨200, "200 OK", .ok "body"⟩ "body"
      testEmbeddingsResponse _ _ rfl rfl rfl rfl rfl).1,
   (GetEmbeddings_first_entry _ _ _ "doc" "foo" ⟨200, "200 OK", .ok "body"⟩ "body"
      testEmbeddingsResponse _ _ rfl rfl rfl rfl rfl).2, rfl⟩

/-- C2: on a response whose status code is not 200 and whose body is read,
`GetEmbeddings` returns no vector and an error whose message holds the status
text and the whole body, whatever the body is and whatever the decoder would
make of it. -/
theorem GetEmbeddings_status_error (D : HTTPClient) (U : Unmarshaler) (o : OpenAIClient)
    (id content : String) (resp : Response) (body : String)
    (hdo : D (GetEmbeddings D U o id content).req = .ok resp)
    (hstatus : resp.StatusCode ≠ 200)
    (hbody : resp.Body = .ok body) :
    (GetEmbeddings D U o id content).vec = [] ∧
      ∃ e : GoError, (GetEmbeddings D U o id content).err = some e ∧
        e.Error = "error getting openai embeddings. Status: " ++ resp.Status
          ++ " Response: " ++ body ∧
        Contains e.Error resp.Status ∧ Contains e.Error body := by
  rw [GetEmbeddings_req] at hdo
  unfold GetEmbeddings
  simp only [MethodPost, openAIEmbeddingsURL, openAIURL, StatusOK, hdo, hbody]
  rw [if_pos hstatus]
  refine ⟨rfl, _, rfl, rfl, ?_, ?_⟩
  · exact ⟨"error getting openai embeddings. Status: ", " Response: " ++ body,
      by simp [GoError.Error, String.append_assoc]⟩
  · exact ⟨"error getting openai embeddings. Status: " ++ resp.Status ++ " Response: ", "",
      by simp [GoError.Error]⟩

/-- C2, at a response with status 500 whose body would decode to a valid
embeddings response. -/
theorem GetEmbeddings_status_error_witness :
    (GetEmbeddings (serve ⟨500, "500 Internal Server Error", .ok "body"⟩)
        (unmarshalAt "body" testEmbeddingsResponse) (NewOpenAIClient (refuse "unused") "k")
        "doc" "foo").vec = [] ∧
      ∃ e : GoError,
        (GetEmbeddings (serve ⟨500, "500 Internal Server Error", .ok "body"⟩)
          (unmarshalAt "body" testEmbeddingsResponse) (NewOpenAIClient (refuse "unused") "k")
          "doc" "foo").err = some e ∧
        e.Error = "error getting openai embeddings. Status: " ++ "500 Internal Server Error"
          ++ " Response: " ++ "body" ∧
        Contains e.Error "500 Internal Server Error" ∧ Contains e.Error "body" :=
  GetEmbeddings_status_error _ _ _ "doc" "foo" ⟨500, "500 Internal Server Error", .ok "body"⟩
    "body" rfl (by decide) rfl

/-- C3: on a response with status 200 whose body decodes to an embeddings
response with an empty data array, `GetEmbeddings` returns no vector and the
error that no embeddings came back. -/
theorem GetEmbeddings_empty_data (D : HTTPClient) (U : Unmarshaler) (o : OpenAIClient)
    (id content : String) (resp : Response) (raw : String) (er : embeddingResponse)
    (hdo : D (GetEmbeddings D U o id content).req = .ok resp)
    (hstatus : resp.StatusCode = 200)
    (hbody : resp.Body = .ok raw)
    (hdec : U raw = .ok er)
    (hdata : er.Data = []) :
    (GetEmbeddings D U o id content).vec = [] ∧
      (GetEmbeddings D U o id content).err =
        some (.leaf "something went wrong, got no embeddings from openai") := by
  rw [GetEmbeddings_req] at hdo
  unfold GetEmbeddings
  simp only [MethodPost, openAIEmbeddingsURL, openAIURL, StatusOK, hdo, hstatus, hbody, hdec,
    hdata]
  simp

/-- C3, at the body with an empty data array. -/
theorem GetEmbeddings_empty_data_witness :
    (GetEmbeddings (serve ⟨200, "200 OK", .ok "\x7b\"data\": []\x7d"⟩)
        (unmarshalAt "\x7b\"data\": []\x7d" ⟨[], "", ⟨0, 0⟩⟩)
        (NewOpenAIClient (refuse "unused") "k") "doc" "foo").vec = [] ∧
      (GetEmbeddings (serve ⟨200, "200 OK", .ok "\x7b\"data\": []\x7d"⟩)
        (unmarshalAt "\x7b\"data\": []\x7d" ⟨[], "", ⟨0, 0⟩⟩)
        (NewOpenAIClient (refuse "unused") "k") "doc" "foo").err =
        some (.leaf "something went wrong, got no embeddings from openai") :=
  GetEmbeddings_empty_data _ _ _ "doc" "foo" ⟨200, "200 OK", .ok "\x7b\"data\": []\x7d"⟩
    "\x7b\"data\": []\x7d" ⟨[], "", ⟨0, 0⟩⟩ rfl rfl rfl rfl rfl

/-- C4: on a response with status 200 whose body the decoder rejects,
`GetEmbeddings` returns no vector and an error that wraps the decoder's error
and whose message holds the whole raw body. -/
theorem GetEmbeddings_decode_error (D : HTTPClient) (U : Unmarshaler) (o : OpenAIClient)
    (id content : String) (resp : Response) (raw : String) (derr : GoError)
    (hdo : D (GetEmbeddings D U o id content).req = .ok resp)
    (hstatus : resp.StatusCode = 200)
    (hbody : resp.Body = .ok raw)
    (hdec : U raw = .error derr) :
    (GetEmbeddings D U o id content).vec = [] ∧
      ∃ e : GoError, (GetEmbeddings D U o id content).err = some e ∧
        e.Unwrap = some derr ∧
        e.Error = "error unmarshaling openai embeddings response: " ++ derr.Error
          ++ "\nresponse body: " ++ raw ∧
        Contains e.Error raw := by
  rw [GetEmbeddings_req] at hdo
  unfold GetEmbeddings
  simp only [MethodPost, openAIEmbeddingsURL, openAIURL, StatusOK, hdo, hstatus, hbody, hdec]
  refine ⟨by simp, Errorf_w _ derr, by simp, rfl, rfl, ?_⟩
  exact ⟨"error unmarshaling openai embeddings response: " ++ derr.Error
    ++ "\nresponse body: ", "", by simp [GoError.Error, Errorf_w]⟩

/-- C4, at a body that is no JSON. -/
theorem GetEmbeddings_decode_error_witness :
    (GetEmbeddings (serve ⟨200, "200 OK", .ok "<html>"⟩)
        (unmarshalFails (.leaf "invalid character"))
        (NewOpenAIClient (refuse "unused") "k") "doc" "foo").vec = [] ∧
      ∃ e : GoError,
        (GetEmbeddings (serve ⟨200, "200 OK", .ok "<html>"⟩)
          (unmarshalFails (.leaf "invalid character"))
          (NewOpenAIClient (refuse "unused") "k") "doc" "foo").err = some e ∧
        e.Unwrap = some (.leaf "invalid character") ∧
        e.Error = "error unmarshaling openai embeddings response: "
          ++ (GoError.leaf "invalid character").Error ++ "\nresponse body: " ++ "<html>" ∧
        Contains e.Error "<html>" :=
  GetEmbeddings_decode_error _ _ _ "doc" "foo" ⟨200, "200 OK", .ok "<html>"⟩ "<html>"
    (.leaf "invalid character") rfl rfl rfl rfl

/-- C7: the request built on a client made by `NewOpenAIClient k` is a POST to
the base URL followed by `/embeddings`, with the headers `Content-Type:
application/json` and `Authorization: Bearer k`, and a body object of exactly
the two fields `model` and `input`; it is the same for every document id. -/
theorem GetEmbeddings_request (D : HTTPClient) (U : Unmarshaler) (k id content : String) :
    (GetEmbeddings D U (NewOpenAIClient D k) id content).req.Method = "POST" ∧
      (GetEmbeddings D U (NewOpenAIClient D k) id content).req.URL
        = openAIURL ++ "/embeddings" ∧
      (GetEmbeddings D U (NewOpenAIClient D k) id content).req.Header
        = [("Content-Type", "application/json"), ("Authorization", "Bearer " ++ k)] ∧
      (GetEmbeddings D U (NewOpenAIClient D k) id content).req.Body
        = [("input", content), ("model", "text-embedding-ada-002")] ∧
      ∀ id2 : String, (GetEmbeddings D U (NewOpenAIClient D k) id2 content).req
        = (GetEmbeddings D U (NewOpenAIClient D k) id content).req := by
  refine ⟨?_, ?_, ?_, ?_, ?_⟩
  · rw [GetEmbeddings_req]
  · rw [GetEmbeddings_req]; rfl
  · rw [GetEmbeddings_req]; rfl
  · rw [GetEmbeddings_req]
  · intro id2
    rw [GetEmbeddings_req, GetEmbeddings_req]

/-- C10: `GetEmbeddings` performs its HTTP call through the package-level
default client and never through the client of the instance. The request it
builds is handed to the default client `D`, whose answer decides the outcome:
a transport error of `D` is the error returned, and any default client with
the same answer on that request gives the same run. Two instances that differ
only in their client send the same request and return the same result. -/
theorem GetEmbeddings_ignores_client (D : HTTPClient) (U : Unmarshaler)
    (o1 o2 : OpenAIClient) (id content : String)
    (hauth : o1.authHeader = o2.authHeader) :
    GetEmbeddings D U o1 id content = GetEmbeddings D U o2 id content ∧
      (GetEmbeddings D U o1 id content).req =
        { Method := "POST", URL := openAIURL ++ "/embeddings",
          Header := [("Content-Type", "application/json"), ("Authorization", o1.authHeader)],
          Body := [("input", content), ("model", "text-embedding-ada-002")] } ∧
      (∀ e : GoError, D (GetEmbeddings D U o1 id content).req = .error e →
        (GetEmbeddings D U o1 id content).err = some e ∧
        (GetEmbeddings D U o2 id content).err = some e ∧
        (GetEmbeddings D U o1 id content).vec = [] ∧
        (GetEmbeddings D U o1 id content).log = []) ∧
      (∀ (resp : Response) (raw : String) (er : embeddingResponse) (first : embeddingData)
          (rest : List embeddingData),
        D (GetEmbeddings D U o1 id content).req = .ok resp → resp.StatusCode = 200 →
        resp.Body = .ok raw → U raw = .ok er → er.Data = first :: rest →
        (GetEmbeddings D U o1 id content).err = none ∧
        (GetEmbeddings D U o1 id content).vec = first.Embedding ∧
        (GetEmbeddings D U o2 id content).vec = first.Embedding) ∧
      (∀ D2 : HTTPClient,
        D2 (GetEmbeddings D U o1 id content).req = D (GetEmbeddings D U o1 id content).req →
        GetEmbeddings D2 U o1 id content = GetEmbeddings D U o1 id content) := by
  have h12 : GetEmbeddings D U o1 id content = GetEmbeddings D U o2 id content := by
    unfold GetEmbeddings
    simp only [hauth]
  refine ⟨h12, ?_, ?_, ?_, ?_⟩
  · rw [GetEmbeddings_req]; rfl
  · intro e he
    rw [← h12]
    rw [GetEmbeddings_req] at he
    unfold GetEmbeddings
    simp only [MethodPost, openAIEmbeddingsURL, openAIURL, he]
    simp
  · intro resp raw er first rest hdo hstatus hbody hdec hdata
    rw [← h12]
    rw [GetEmbeddings_req] at hdo
    unfold GetEmbeddings
    simp only [MethodPost, openAIEmbeddingsURL, openAIURL, StatusOK, hdo, hstatus, hbody, hdec,
      hdata]
    simp
  · intro D2 h2
    rw [GetEmbeddings_req] at h2
    unfold GetEmbeddings
    simp only [MethodPost, openAIEmbeddingsURL, openAIURL, h2]

/-- C10, at two instances whose own clients would answer with status 200 and
with status 500, while the default client refuses the connection: both calls
return the default client's transport error. -/
theorem GetEmbeddings_ignores_client_witness :
    GetEmbeddings (refuse "connection refused")
        (unmarshalAt "body" testEmbeddingsResponse)
        ⟨serve ⟨200, "200 OK", .ok "body"⟩, "Bearer k"⟩ "doc" "foo"
      = GetEmbeddings (refuse "connection refused")
        (unmarshalAt "body" testEmbeddingsResponse)
        ⟨serve ⟨500, "500 Internal Server Error", .ok ""⟩, "Bearer k"⟩ "doc" "foo" ∧
    (GetEmbeddings (refuse "connection refused")
        (unmarshalAt "body" testEmbeddingsResponse)
        ⟨serve ⟨200, "200 OK", .ok "body"⟩, "Bearer k"⟩ "doc" "foo").err
      = some (.leaf "connection refused") :=
  ⟨(GetEmbeddings_ignores_client (refuse "connection refused")
      (unmarshalAt "body" testEmbeddingsResponse)
      ⟨serve ⟨200, "200 OK", .ok "body"⟩, "Bearer k"⟩
      ⟨serve ⟨500, "500 Internal Server Error", .ok ""⟩, "Bearer k"⟩ "doc" "foo" rfl).1,
   ((GetEmbeddings_ignores_client (refuse "connection refused")
      (unmarshalAt "body" testEmbeddingsResponse)
      ⟨serve ⟨200, "200 OK", .ok "body"⟩, "Bearer k"⟩
      ⟨serve ⟨500, "500 Internal Server Error", .ok ""⟩, "Bearer k"⟩ "doc" "foo" rfl).2.2.1
      (.leaf "connection refused") rfl).1⟩

/-- C8, as stated, fails: on a response with status 200 and an empty data array
the call returns an error and has logged one record. -/
theorem GetEmbeddings_log_on_error :
    ¬ ((GetEmbeddings (serve ⟨200, "200 OK", .ok "\x7b\"data\": []\x7d"⟩)
          (unmarshalAt "\x7b\"data\": []\x7d" ⟨[], "", ⟨0, 0⟩⟩)
          (NewOpenAIClient (refuse "unused") "k") "doc" "foo").err ≠ none →
        (GetEmbeddings (serve ⟨200, "200 OK", .ok "\x7b\"data\": []\x7d"⟩)
          (unmarshalAt "\x7b\"data\": []\x7d" ⟨[], "", ⟨0, 0⟩⟩)
          (NewOpenAIClient (refuse "unused") "k") "doc" "foo").log = []) := by
  intro h
  have hlog := h (by simp [GetEmbeddings, serve, unmarshalAt, StatusOK])
  simp [GetEmbeddings, serve, unmarshalAt, StatusOK] at hlog

/-- C8, amended: `GetEmbeddings` logs its record, with the document id and the
model and token counts of the response, exactly on the calls whose response has
status 200 and a body that is read and decodes: one record on every call that
returns no error, and no record when the transport fails, the status is not
200, or the body is not read or does not decode. -/
theorem GetEmbeddings_log (D : HTTPClient) (U : Unmarshaler) (o : OpenAIClient)
    (id content : String) :
    ((GetEmbeddings D U o id content).err = none →
        (GetEmbeddings D U o id content).log.length = 1) ∧
      (∀ (resp : Response) (raw : String) (er : embeddingResponse),
        D (GetEmbeddings D U o id content).req = .ok resp → resp.StatusCode = 200 →
        resp.Body = .ok raw → U raw = .ok er →
        (GetEmbeddings D U o id content).log =
          [{ documentID := id, embeddingModelUsed := er.Model,
             promptTokensUsed := er.Usage.PromptTokens,
             totalTokensUsed := er.Usage.TotalTokens,
             Msg := "openai embedding token usage" }]) ∧
      ((¬ ∃ (resp : Response) (raw : String) (er : embeddingResponse),
          D (GetEmbeddings D U o id content).req = .ok resp ∧ resp.StatusCode = 200 ∧
          resp.Body = .ok raw ∧ U raw = .ok er) →
        (GetEmbeddings D U o id content).log = []) := by
  rw [GetEmbeddings_req]
  unfold GetEmbeddings
  simp only [MethodPost, openAIEmbeddingsURL, openAIURL, StatusOK]
  repeat' split
  all_goals simp_all
  all_goals
    intro resp raw er hresp hstatus hbody hdec
    subst hresp
    simp_all

/-- C9, as stated, fails: on a response with status 200 whose first data entry
carries no embedding, the call returns no error and an empty vector. -/
theorem GetEmbeddings_empty_success :
    ¬ ((GetEmbeddings (serve ⟨200, "200 OK", .ok noEmbeddingBody⟩)
          (unmarshalAt noEmbeddingBody noEmbeddingResponse)
          (NewOpenAIClient (refuse "unused") "k") "doc" "foo").err = none →
        (GetEmbeddings (serve ⟨200, "200 OK", .ok noEmbeddingBody⟩)
          (unmarshalAt noEmbeddingBody noEmbeddingResponse)
          (NewOpenAIClient (refuse "unused") "k") "doc" "foo").vec ≠ []) := by
  intro h
  exact h (by simp [GetEmbeddings, serve, unmarshalAt, StatusOK, noEmbeddingResponse])
    (by simp [GetEmbeddings, serve, unmarshalAt, StatusOK, noEmbeddingResponse])

/-- C9, amended: every call returns either an error with no vector, or no error
with the embedding of the first data entry of a response that had status 200
and a non-empty data array; that embedding is returned as it is, empty or not. -/
theorem GetEmbeddings_error_or_first (D : HTTPClient) (U : Unmarshaler) (o : OpenAIClient)
    (id content : String) :
    ((GetEmbeddings D U o id content).err ≠ none ∧ (GetEmbeddings D U o id content).vec = []) ∨
      ((GetEmbeddings D U o id content).err = none ∧
        ∃ (resp : Response) (raw : String) (er : embeddingResponse) (first : embeddingData)
          (rest : List embeddingData),
          D (GetEmbeddings D U o id content).req = .ok resp ∧ resp.StatusCode = 200 ∧
          resp.Body = .ok raw ∧ U raw = .ok er ∧ er.Data = first :: rest ∧
          (GetEmbeddings D U o id content).vec = first.Embedding) := by
  rw [GetEmbeddings_req]
  unfold GetEmbeddings
  simp only [MethodPost, openAIEmbeddingsURL, openAIURL, StatusOK]
  repeat' split
  all_goals simp_all

/-- C5 fails on the code: `testEmbedder.GetEmbeddingsBatch` returns one vector
whatever the contents are, holding the number of contents; for the two
contents `foo` and `bar` it returns the single vector `[2, 1.1, 2.2]`, where
`GetEmbeddings` gives `[3, 1.1, 2.2]` for each of them (the constants as
`float32` values). -/
theorem testEmbedder_GetEmbeddingsBatch_one_vector :
    (∀ content : List String,
      (testEmbedder.GetEmbeddingsBatch content).1.length = 1 ∧
      (testEmbedder.GetEmbeddingsBatch content).2 = none) ∧
    (testEmbedder.GetEmbeddingsBatch ["foo", "bar"]).1 = [[2, f32_1_1, f32_2_2]] ∧
    (["foo", "bar"] : List String).length = 2 ∧
    (testEmbedder.GetEmbeddings "foo").1 = [3, f32_1_1, f32_2_2] ∧
    (testEmbedder.GetEmbeddings "bar").1 = [3, f32_1_1, f32_2_2] := by
  refine ⟨fun content => ⟨rfl, rfl⟩, ?_, rfl, ?_, ?_⟩
  · have h : float32OfNat 2 = 2 := float32OfNat_exact 2 (by norm_num)
    simp [testEmbedder.GetEmbeddingsBatch, h]
  · have h : "foo".utf8ByteSize = 3 := by decide
    have h3 : float32OfNat 3 = 3 := float32OfNat_exact 3 (by norm_num)
    simp [testEmbedder.GetEmbeddings, h, h3]
  · have h : "bar".utf8ByteSize = 3 := by decide
    have h3 : float32OfNat 3 = 3 := float32OfNat_exact 3 (by norm_num)
    simp [testEmbedder.GetEmbeddings, h, h3]

/-- C6, as stated, fails: for contents of `2 ^ 24 + 1`, `2 ^ 24` and
`2 ^ 24 + 2` bytes the length differences are 1 and 1, yet the first length is
rounded to `2 ^ 24` as a `float32`, so the distances are 0 and 2. -/
theorem testEmbedder_l2_order_rounding :
    ¬ (∀ da db : ℚ,
        IsL2Distance (testEmbedder.GetEmbeddings (longContent 16777217)).1
          (testEmbedder.GetEmbeddings (longContent 16777216)).1 da →
        IsL2Distance (testEmbedder.GetEmbeddings (longContent 16777217)).1
          (testEmbedder.GetEmbeddings (longContent 16777218)).1 db →
        (da < db ↔
          |((longContent 16777217).utf8ByteSize : ℤ) - ((longContent 16777216).utf8ByteSize : ℤ)|
            < |((longContent 16777217).utf8ByteSize : ℤ)
                - ((longContent 16777218).utf8ByteSize : ℤ)|)) := by
  intro h
  have h16 : float32OfNat 16777216 = 16777216 := float32OfNat_exact _ (by norm_num)
  have ha : IsL2Distance (testEmbedder.GetEmbeddings (longContent 16777217)).1
      (testEmbedder.GetEmbeddings (longContent 16777216)).1 0 := by
    refine ⟨le_refl _, ?_⟩
    rw [l2sq_testEmbedder, utf8ByteSize_longContent, utf8ByteSize_longContent,
      float32OfNat_16777217, h16]
    norm_num
  have hb : IsL2Distance (testEmbedder.GetEmbeddings (longContent 16777217)).1
      (testEmbedder.GetEmbeddings (longContent 16777218)).1 2 := by
    refine ⟨by norm_num, ?_⟩
    rw [l2sq_testEmbedder, utf8ByteSize_longContent, utf8ByteSize_longContent,
      float32OfNat_16777217, float32OfNat_16777218]
    norm_num
  have hiff := h 0 2 ha hb
  rw [utf8ByteSize_longContent, utf8ByteSize_longContent, utf8ByteSize_longContent] at hiff
  have hlt := hiff.mp (by norm_num)
  norm_num at hlt

/-- C6, amended: with the test embedder, which succeeds on every content, for
contents `q`, `a` and `b` of at most `2 ^ 24` bytes the l2 distance of the
embeddings of `q` and `a` is `|len q - len a|`, so the distance from `q` to `a`
is strictly smaller than the distance from `q` to `b`, and `a` ranks before
`b`, exactly when `|len q - len a| < |len q - len b|`. -/
theorem testEmbedder_l2_order (q a b : String)
    (hq : q.utf8ByteSize ≤ 2 ^ 24) (ha : a.utf8ByteSize ≤ 2 ^ 24)
    (hb : b.utf8ByteSize ≤ 2 ^ 24) :
    (testEmbedder.GetEmbeddings q).2 = none ∧
      IsL2Distance (testEmbedder.GetEmbeddings q).1 (testEmbedder.GetEmbeddings a).1
        ((|(q.utf8ByteSize : ℤ) - (a.utf8ByteSize : ℤ)| : ℤ) : ℚ) ∧
      IsL2Distance (testEmbedder.GetEmbeddings q).1 (testEmbedder.GetEmbeddings b).1
        ((|(q.utf8ByteSize : ℤ) - (b.utf8ByteSize : ℤ)| : ℤ) : ℚ) ∧
      (∀ da db : ℚ,
        IsL2Distance (testEmbedder.GetEmbeddings q).1 (testEmbedder.GetEmbeddings a).1 da →
        IsL2Distance (testEmbedder.GetEmbeddings q).1 (testEmbedder.GetEmbeddings b).1 db →
        (da < db ↔ |(q.utf8ByteSize : ℤ) - (a.utf8ByteSize : ℤ)|
          < |(q.utf8ByteSize : ℤ) - (b.utf8ByteSize : ℤ)|)) ∧
      (RanksBefore (testEmbedder.GetEmbeddings q).1 (testEmbedder.GetEmbeddings a).1
          (testEmbedder.GetEmbeddings b).1 ↔
        |(q.utf8ByteSize : ℤ) - (a.utf8ByteSize : ℤ)|
          < |(q.utf8ByteSize : ℤ) - (b.utf8ByteSize : ℤ)|) := by
  have hsq : ∀ c : String, c.utf8ByteSize ≤ 2 ^ 24 →
      l2sq (testEmbedder.GetEmbeddings q).1 (testEmbedder.GetEmbeddings c).1
        = ((q.utf8ByteSize : ℚ) - (c.utf8ByteSize : ℚ)) ^ 2 := by
    intro c hc
    rw [l2sq_testEmbedder, float32OfNat_exact _ hq, float32OfNat_exact _ hc]
  have hdist : ∀ c : String, c.utf8ByteSize ≤ 2 ^ 24 →
      IsL2Distance (testEmbedder.GetEmbeddings q).1 (testEmbedder.GetEmbeddings c).1
        ((|(q.utf8ByteSize : ℤ) - (c.utf8ByteSize : ℤ)| : ℤ) : ℚ) := by
    intro c hc
    refine ⟨?_, ?_⟩
    · exact_mod_cast abs_nonneg ((q.utf8ByteSize : ℤ) - (c.utf8ByteSize : ℤ))
    · rw [hsq c hc]
      push_cast
      exact sq_abs _
  have horder : ∀ da db : ℚ,
      IsL2Distance (testEmbedder.GetEmbeddings q).1 (testEmbedder.GetEmbeddings a).1 da →
      IsL2Distance (testEmbedder.GetEmbeddings q).1 (testEmbedder.GetEmbeddings b).1 db →
      (da < db ↔ |(q.utf8ByteSize : ℤ) - (a.utf8ByteSize : ℤ)|
        < |(q.utf8ByteSize : ℤ) - (b.utf8ByteSize : ℤ)|) := by
    intro da db hda hdb
    have h1 : da = |(q.utf8ByteSize : ℚ) - (a.utf8ByteSize : ℚ)| :=
      eq_abs_of_sq_eq _ _ hda.1 (by rw [hda.2, hsq a ha])
    have h2 : db = |(q.utf8ByteSize : ℚ) - (b.utf8ByteSize : ℚ)| :=
      eq_abs_of_sq_eq _ _ hdb.1 (by rw [hdb.2, hsq b hb])
    rw [h1, h2]
    constructor
    · intro h
      exact_mod_cast h
    · intro h
      exact_mod_cast h
  refine ⟨rfl, hdist a ha, hdist b hb, horder, ?_⟩
  constructor
  · rintro ⟨da, db, hda, hdb, hlt⟩
    exact (horder da db hda hdb).mp hlt
  · intro hlt
    exact ⟨_, _, hdist a ha, hdist b hb, (horder _ _ (hdist a ha) (hdist b hb)).mpr hlt⟩

/-- C8, amended, at the response of the test: the call returns no error and logs
the one record with the document id, the model and the token counts. -/
theorem GetEmbeddings_log_witness :
    (GetEmbeddings (serve ⟨200, "200 OK", .ok "body"⟩)
        (unmarshalAt "body" testEmbeddingsResponse) (NewOpenAIClient (refuse "unused") "k")
        "doc" "foo").log.length = 1 ∧
      (GetEmbeddings (serve ⟨200, "200 OK", .ok "body"⟩)
        (unmarshalAt "body" testEmbeddingsResponse) (NewOpenAIClient (refuse "unused") "k")
        "doc" "foo").log = [⟨"doc", "text-embedding-ada-002", 8, 8,
          "openai embedding token usage"⟩] :=
  ⟨(GetEmbeddings_log (serve ⟨200, "200 OK", .ok "body"⟩)
      (unmarshalAt "body" testEmbeddingsResponse) (NewOpenAIClient (refuse "unused") "k")
      "doc" "foo").1 rfl,
   (GetEmbeddings_log (serve ⟨200, "200 OK", .ok "body"⟩)
      (unmarshalAt "body" testEmbeddingsResponse) (NewOpenAIClient (refuse "unused") "k")
      "doc" "foo").2.1 ⟨200, "200 OK", .ok "body"⟩ "body" testEmbeddingsResponse
      rfl rfl rfl rfl⟩

/-- C6, amended, at the query and the two documents of the test: the distances
are 2 and 8, and the first document ranks before the second. -/
theorem testEmbedder_l2_order_witness :
    IsL2Distance (testEmbedder.GetEmbeddings "Hello, how are yu").1
        (testEmbedder.GetEmbeddings "Hello, how are you?").1 2 ∧
      IsL2Distance (testEmbedder.GetEmbeddings "Hello, how are yu").1
        (testEmbedder.GetEmbeddings "I am well").1 8 ∧
      RanksBefore (testEmbedder.GetEmbeddings "Hello, how are yu").1
        (testEmbedder.GetEmbeddings "Hello, how are you?").1
        (testEmbedder.GetEmbeddings "I am well").1 := by
  have hq : "Hello, how are yu".utf8ByteSize = 17 := by decide
  have ha : "Hello, how are you?".utf8ByteSize = 19 := by decide
  have hb : "I am well".utf8ByteSize = 9 := by decide
  have h := testEmbedder_l2_order "Hello, how are yu" "Hello, how are you?" "I am well"
    (by rw [hq]; norm_num) (by rw [ha]; norm_num) (by rw [hb]; norm_num)
  rw [hq, ha, hb] at h
  refine ⟨?_, ?_, ?_⟩
  · have h1 := h.2.1
    norm_num at h1
    exact h1
  · have h2 := h.2.2.1
    norm_num at h2
    exact h2
  · exact h.2.2.2.2.mpr (by norm_num)

end Gochroma
